import Mathlib

/-
Verification development for the dcrwebapi repository (decred/dcrwebapi).

The Go source is shallowly embedded in Lean:
  - Go float64 values are modelled with exact rationals.  At every input
    considered by a concrete theorem below, the float64 computation of the
    source agrees with the exact rational computation (the magnitudes keep
    intermediate products either exactly representable or far from the
    floor discontinuities), so the rational semantics is faithful there.
  - Go interface values decoded by encoding/json into map[string]interface
    form are modelled by the GoValue inductive; json numbers always decode
    to float64, hence to rationals here.
  - A failed single-value Go type assertion aborts the goroutine with a
    runtime panic; the Outcome type has an explicit crash constructor for
    that, next to ok and err for normal returns.
  - Go maps keyed by strings are modelled as association lists; map reads
    of a missing key yield the zero value of the element type, exactly as
    in Go.
-/

set_option autoImplicit false

namespace DcrWeb

/-- Model of a Go interface value produced by encoding/json unmarshalling:
null, bool, float64, string, array, or object. -/
inductive GoValue where
  | null : GoValue
  | bool (b : Bool) : GoValue
  | num (q : ℚ) : GoValue
  | str (s : String) : GoValue
  | arr (xs : List GoValue) : GoValue
  | obj (fields : List (String × GoValue)) : GoValue

/-- The error values the embedded functions return (mirroring the
fmt.Errorf sites of the source, with the formatted payloads abstracted). -/
inductive GoErr where
  | fetchFailed : GoErr
  | unmarshalFailed : GoErr
  | nonSuccessStatus (status : String) : GoErr
  | missingFields : GoErr
  | badCacheItem : GoErr

/-- Result of a Go function call in this embedding: a normal value, a normal
error return, or a runtime panic of the goroutine (failed type assertion). -/
inductive Outcome (α : Type) where
  | ok (a : α) : Outcome α
  | err (e : GoErr) : Outcome α
  | crash : Outcome α

end DcrWeb

namespace DcrWeb

/-- Sequencing of Go statements that can return an error or panic. -/
def Outcome.bind {α β : Type} : Outcome α → (α → Outcome β) → Outcome β
  | .ok a, f => f a
  | .err e, _ => .err e
  | .crash, _ => .crash

/-- Go single-value type assertion v.(string): panics unless the value is
present and is a string. -/
def asString : Option GoValue → Outcome String
  | some (.str s) => .ok s
  | _ => .crash

/-- Go single-value type assertion v.(float64). -/
def asFloat : Option GoValue → Outcome ℚ
  | some (.num q) => .ok q
  | _ => .crash

/-- Go single-value type assertion v.(bool). -/
def asBool : Option GoValue → Outcome Bool
  | some (.bool b) => .ok b
  | _ => .crash

/-- Go single-value type assertion v.(map[string]interface) on a decoded
json value. -/
def asObj : Option GoValue → Outcome (List (String × GoValue))
  | some (.obj fs) => .ok fs
  | _ => .crash

/-- Go single-value type assertion v.([]interface). -/
def asArr : Option GoValue → Outcome (List GoValue)
  | some (.arr xs) => .ok xs
  | _ => .crash

/-- Go conversion int(x) / int64(x) from float64: truncation toward zero. -/
def goInt (q : ℚ) : Int := Int.tdiv q.num (Int.ofNat q.den)

/-- Body bytes of an HTTP response, as far as json.Unmarshal is concerned:
either not valid JSON at all, or some JSON document. -/
inductive RespBody where
  | notJSON : RespBody
  | jsonVal (v : GoValue) : RespBody

/-- Result of getHTTP (service.go): any request-creation, transport,
non-200-status or body-read failure collapses to fetchError (getHTTP turns
each of them into a returned error); success carries the body. -/
inductive FetchResult where
  | fetchError : FetchResult
  | success (body : RespBody) : FetchResult

/-- json.Unmarshal of a response body into map[string]interface: succeeds
exactly when the body is a JSON object. -/
def unmarshalMap : RespBody → Option (List (String × GoValue))
  | .jsonVal (.obj fs) => some fs
  | _ => none

/-- round (helper.go lines 47-50): multiply by 10^places, floor after
adding one half, divide back.  Exact rational semantics of the float code;
Rat.floor is definitionally the floor of the rational order. -/
def round (f : ℚ) (places : Nat) : ℚ :=
  ((Rat.floor (f * 10 ^ places + 1 / 2) : Int) : ℚ) / 10 ^ places

/-- semanticBuildAlphabet (helper source): the characters allowed in a
semantic-versioning build-metadata string. -/
def semanticBuildAlphabet : String :=
  "0123456789ABCDEFGHIJKLMNOPQRSTUVWXYZabcdefghijklmnopqrstuvwxyz-.+"

/-- normalizeSemString (helper source): keep exactly the characters of the
given alphabet, in order. -/
def normalizeSemString (str alphabet : String) : String :=
  String.mk (List.filter (fun r => List.contains (String.toList alphabet) r)
    (String.toList str))

/-- NormalizeBuildString (helper source): whitelist-filter to the
semantic-versioning build-metadata alphabet. -/
def NormalizeBuildString (str : String) : String :=
  normalizeSemString str semanticBuildAlphabet

/-- The truncation applied in stakepoolStats (service.go lines 573-575):
cut to the first 13 characters when longer.  The input there is always
output of NormalizeBuildString, hence pure ASCII, so Go byte slicing and
character truncation agree. -/
def truncateVersion (s : String) : String :=
  if s.length > 13 then String.mk (List.take 13 (String.toList s)) else s

end DcrWeb

namespace DcrWeb

/-- Stakepool (service.go lines 62-113): the record kept per legacy
stakepool.  float64 fields are exact rationals here. -/
structure Stakepool where
  apiEnabled : Bool
  apiVersionsSupported : List GoValue
  network : String
  url : String
  launched : Int
  lastUpdated : Int
  immature : Int
  live : Int
  voted : Int
  missed : Int
  poolFees : ℚ
  proportionLive : ℚ
  proportionMissed : ℚ
  userCount : Int
  userCountActive : Int
  version : String

/-- The Go zero value of Stakepool, returned by a map read of a missing
key. -/
def Stakepool.zero : Stakepool where
  apiEnabled := false
  apiVersionsSupported := []
  network := ""
  url := ""
  launched := 0
  lastUpdated := 0
  immature := 0
  live := 0
  voted := 0
  missed := 0
  poolFees := 0
  proportionLive := 0
  proportionMissed := 0
  userCount := 0
  userCountActive := 0
  version := ""

/-- Vsp (service.go lines 46-59): the record kept per voting service
provider. -/
structure Vsp where
  network : String
  launched : Int
  lastUpdated : Int
  apiVersions : List Int
  feePercentage : ℚ
  closed : Bool
  voting : Int
  voted : Int
  revoked : Int

/-- The Go zero value of Vsp. -/
def Vsp.zero : Vsp where
  network := ""
  launched := 0
  lastUpdated := 0
  apiVersions := []
  feePercentage := 0
  closed := false
  voting := 0
  voted := 0
  revoked := 0

/-- StakepoolSet (service.go line 116): map from pool key to record,
modelled as an association list. -/
abbrev StakepoolSet := List (String × Stakepool)

/-- vspSet (service.go line 60). -/
abbrev VspSet := List (String × Vsp)

/-- Go map read m[k] for a Stakepool map: zero value when absent. -/
def StakepoolSet.get (pools : StakepoolSet) (key : String) : Stakepool :=
  (List.lookup key pools).getD Stakepool.zero

/-- Go map read m[k] for a Vsp map. -/
def VspSet.get (vsps : VspSet) (url : String) : Vsp :=
  (List.lookup url vsps).getD Vsp.zero

/-- Go map assignment m[k] = v on an association list: replace in place,
or append when the key is new. -/
def setAssoc {α : Type} : List (String × α) → String → α → List (String × α)
  | [], key, v => [(key, v)]
  | (k0, v0) :: rest, key, v =>
    if k0 = key then (k0, v) :: rest else (k0, v0) :: setAssoc rest key v

/-- The decoding part of stakepoolStats (service.go lines 526-588): from
the fetched response to the updated local pool record, following the
statements of the source in order.  Each Go single-value type assertion
can crash; every early return of the source is an err. -/
def stakepoolStatsDecode (resp : FetchResult) (now : Int) (pool : Stakepool) :
    Outcome Stakepool :=
  match resp with
  | .fetchError => .err .fetchFailed
  | .success body =>
    match unmarshalMap body with
    | none => .err .unmarshalFailed
    | some poolData =>
      Outcome.bind (asString (List.lookup ("status") poolData)) fun status =>
      if status = ("success") then
        Outcome.bind (asObj (List.lookup ("data") poolData)) fun data =>
        let hasRequiredFields :=
          (List.lookup ("Immature") data).isSome &&
          (List.lookup ("Live") data).isSome &&
          (List.lookup ("Voted") data).isSome &&
          (List.lookup ("Missed") data).isSome &&
          (List.lookup ("PoolFees") data).isSome &&
          (List.lookup ("ProportionLive") data).isSome &&
          (List.lookup ("ProportionMissed") data).isSome &&
          (List.lookup ("UserCount") data).isSome &&
          (List.lookup ("UserCountActive") data).isSome &&
          (List.lookup ("APIVersionsSupported") data).isSome
        if hasRequiredFields then
          Outcome.bind (asString (List.lookup ("Version") data)) fun version =>
          let poolVersion := truncateVersion (NormalizeBuildString version)
          Outcome.bind (asFloat (List.lookup ("Immature") data)) fun immature =>
          Outcome.bind (asFloat (List.lookup ("Live") data)) fun live =>
          Outcome.bind (asFloat (List.lookup ("Voted") data)) fun voted =>
          Outcome.bind (asFloat (List.lookup ("Missed") data)) fun missed =>
          Outcome.bind (asFloat (List.lookup ("PoolFees") data)) fun poolFees =>
          Outcome.bind (asFloat (List.lookup ("ProportionLive") data)) fun propLive =>
          Outcome.bind (asFloat (List.lookup ("ProportionMissed") data)) fun propMissed =>
          Outcome.bind (asFloat (List.lookup ("UserCount") data)) fun userCount =>
          Outcome.bind (asFloat (List.lookup ("UserCountActive") data)) fun userCountActive =>
          Outcome.bind (asArr (List.lookup ("APIVersionsSupported") data)) fun apivs =>
          .ok { pool with
            version := poolVersion
            immature := goInt immature
            live := goInt live
            voted := goInt voted
            missed := goInt missed
            poolFees := poolFees
            proportionLive := propLive
            proportionMissed := propMissed
            userCount := goInt userCount
            userCountActive := goInt userCountActive
            apiVersionsSupported := apivs
            apiEnabled := true
            lastUpdated := now }
        else .err .missingFields
      else .err (.nonSuccessStatus status)

/-- stakepoolStats (service.go lines 526-594) at the store level: reads
the current record for the key, decodes the fetched response, and writes
the updated record back only on full success.  The response of the remote
pool and the acceptance time are inputs of the embedding. -/
def stakepoolStats (pools : StakepoolSet) (key : String) (resp : FetchResult)
    (now : Int) : StakepoolSet × Outcome Unit :=
  match stakepoolStatsDecode resp now (StakepoolSet.get pools key) with
  | .ok pool => (setAssoc pools key pool, .ok ())
  | .err e => (pools, .err e)
  | .crash => (pools, .crash)

/-- The loop of vspStats over apiversions: each element passes through the
assertions i.(float64) and int64(..). -/
def vspAPIVersions : List GoValue → Outcome (List Int)
  | [] => .ok []
  | .num q :: rest =>
    Outcome.bind (vspAPIVersions rest) fun t => .ok (goInt q :: t)
  | _ :: _ => .crash

/-- The decoding part of vspStats (service.go lines 596-641): presence of
all six required fields is checked before any type assertion on them. -/
def vspStatsDecode (resp : FetchResult) (now : Int) (vsp : Vsp) : Outcome Vsp :=
  match resp with
  | .fetchError => .err .fetchFailed
  | .success body =>
    match unmarshalMap body with
    | none => .err .unmarshalFailed
    | some info =>
      let apiversions := List.lookup ("apiversions") info
      let feepercentage := List.lookup ("feepercentage") info
      let vspclosed := List.lookup ("vspclosed") info
      let voting := List.lookup ("voting") info
      let voted := List.lookup ("voted") info
      let revoked := List.lookup ("revoked") info
      let hasRequiredFields :=
        apiversions.isSome && feepercentage.isSome && vspclosed.isSome &&
        voting.isSome && voted.isSome && revoked.isSome
      if hasRequiredFields then
        Outcome.bind (asArr apiversions) fun avs =>
        Outcome.bind (vspAPIVersions avs) fun apiVersions =>
        Outcome.bind (asFloat feepercentage) fun fee =>
        Outcome.bind (asBool vspclosed) fun closed =>
        Outcome.bind (asFloat voting) fun votingF =>
        Outcome.bind (asFloat voted) fun votedF =>
        Outcome.bind (asFloat revoked) fun revokedF =>
        .ok { vsp with
          apiVersions := apiVersions
          feePercentage := fee
          closed := closed
          voting := goInt votingF
          voted := goInt votedF
          revoked := goInt revokedF
          lastUpdated := now }
      else .err .missingFields

/-- vspStats (service.go lines 596-648) at the store level. -/
def vspStats (vsps : VspSet) (url : String) (resp : FetchResult)
    (now : Int) : VspSet × Outcome Unit :=
  match vspStatsDecode resp now (VspSet.get vsps url) with
  | .ok vsp => (setAssoc vsps url vsp, .ok ())
  | .err e => (vsps, .err e)
  | .crash => (vsps, .crash)

/-- StakepoolAPIInitialVersion (service.go line 24). -/
def StakepoolAPIInitialVersion : Nat := 1

/-- StakepoolAPICurrentVersion (service.go line 27). -/
def StakepoolAPICurrentVersion : Nat := 2

/-- One fan-out unit of stakepoolData (service.go lines 673-683): try the
current API version; when and only when that call returns an error, retry
once at the initial version.  The response oracle gives the remote answer
per attempted API version; the returned list records the versions
attempted in order. -/
def stakepoolDataUnit (pools : StakepoolSet) (key : String)
    (resp : Nat → FetchResult) (now : Int) : StakepoolSet × List Nat :=
  let r1 := stakepoolStats pools key (resp StakepoolAPICurrentVersion) now
  match r1.2 with
  | .err _ =>
    let r2 := stakepoolStats r1.1 key (resp StakepoolAPIInitialVersion) now
    (r2.1, [StakepoolAPICurrentVersion, StakepoolAPIInitialVersion])
  | _ => (r1.1, [StakepoolAPICurrentVersion])

/-- True exactly when the outcome is a returned (non-nil) Go error. -/
def Outcome.isErr {α : Type} : Outcome α → Bool
  | .err _ => true
  | _ => false

end DcrWeb

namespace DcrWeb

/-- Program counter of one fan-out goroutine with respect to the cycle
waitGroup.  A unit at start has been spawned but has executed nothing yet;
its first step is its own waitGroup.Add(1) (vspData, service.go line 654),
its second step performs the fetch work and the deferred waitGroup.Done.
A unit whose Add was already performed by the spawning loop
(stakepoolData, service.go line 669) begins at added. -/
inductive UnitPC where
  | start : UnitPC
  | added : UnitPC
  | finished : UnitPC

/-- A configuration of the fan-out cycle: the waitGroup counter, the state
of every spawned unit, and whether the main goroutine has returned from
waitGroup.Wait. -/
structure WGConfig where
  counter : Int
  units : List UnitPC
  mainReturned : Bool

/-- One schedulable step: either unit i runs its next action, or the main
goroutine completes waitGroup.Wait (enabled only while the counter is
zero, per the sync.WaitGroup semantics). -/
inductive WGLabel where
  | unitStep (i : Nat) : WGLabel
  | mainWait : WGLabel

/-- The next action of a unit given its program counter and the current
waitGroup counter; none when the unit has already finished. -/
def unitStepFn : UnitPC → Int → Option (UnitPC × Int)
  | .start, c => some (.added, c + 1)
  | .added, c => some (.finished, c - 1)
  | .finished, _ => none

/-- Small-step interleaving semantics of the fan-out cycle: apply one
labelled step if it is enabled in the configuration. -/
def wgStep (cfg : WGConfig) : WGLabel → Option WGConfig
  | .unitStep i =>
    match cfg.units.get? i with
    | some pc =>
      (unitStepFn pc cfg.counter).map fun r =>
        { cfg with units := cfg.units.set i r.1, counter := r.2 }
    | none => none
  | .mainWait =>
    if cfg.mainReturned then none
    else if cfg.counter = 0 then some { cfg with mainReturned := true }
    else none

/-- Run a schedule: a sequence of labelled steps, each of which must be
enabled when its turn comes. -/
def wgRun (cfg : WGConfig) : List WGLabel → Option WGConfig
  | [] => some cfg
  | l :: rest =>
    match wgStep cfg l with
    | some cfg2 => wgRun cfg2 rest
    | none => none

/-- The configuration of vspData (service.go lines 650-663) when the main
goroutine reaches waitGroup.Wait: n goroutines spawned, each of which will
itself execute waitGroup.Add(1) as its first action, counter still zero. -/
def vspDataStart (n : Nat) : WGConfig :=
  { counter := 0, units := List.replicate n UnitPC.start, mainReturned := false }

/-- The configuration of stakepoolData (service.go lines 666-686) when the
main goroutine reaches waitGroup.Wait: waitGroup.Add(len) already executed
before spawning, so the counter is n and every unit starts at added. -/
def stakepoolDataStart (n : Nat) : WGConfig :=
  { counter := (n : Int), units := List.replicate n UnitPC.added, mainReturned := false }

end DcrWeb

namespace DcrWeb

/-- CoinSupply (service.go lines 31-41). -/
structure CoinSupply where
  airdrop : ℚ
  coinSupplyMined : ℚ
  coinSupplyMinedRaw : ℚ
  coinSupplyTotal : ℚ
  percentMined : ℚ
  pos : ℚ
  pow : ℚ
  premine : ℚ
  subsidy : ℚ

/-- The typed items that the service ever stores in its cache: the
download-count string slice, or a coin-supply response. -/
inductive CacheItem where
  | strings (l : List String) : CacheItem
  | supply (c : CoinSupply) : CacheItem

/-- CacheEntry (service.go lines 144-150): a cached item with an absolute
expiry, in Unix seconds here. -/
structure CacheEntry where
  item : CacheItem
  expiry : Int

/-- The sync.Map cache of the service, as an association list. -/
abbrev Cache := List (String × CacheEntry)

/-- The mutable state of the Service (service.go lines 153-165) that the
embedded handlers touch: the cache, the stakepool store, the vsp store. -/
structure ServiceState where
  cache : Cache
  stakepools : StakepoolSet
  vsps : VspSet

/-- The fetch-and-cache tail of coinSupply (service.go lines 486-522), run
on a cache miss or an expired entry: fetch the supply JSON, read
supply_mined via a float64 type assertion, derive every field, cache the
response for one minute. -/
def coinSupplyFetch (cache : Cache) (now : Int) (fetch : FetchResult) :
    Cache × Outcome CoinSupply :=
  match fetch with
  | .fetchError => (cache, .err .fetchFailed)
  | .success body =>
    match unmarshalMap body with
    | none => (cache, .err .unmarshalFailed)
    | some supply =>
      match asFloat (List.lookup ("supply_mined") supply) with
      | .ok supplyMined =>
        let currentCoinSupply := round supplyMined 1
        let airdrop : ℚ := 840000
        let premine : ℚ := 840000
        let coinSupplyAvailable := round (currentCoinSupply / 100000000) 0
        let coinSupplyAfterGenesisBlock := coinSupplyAvailable - airdrop - premine
        let totalCoinSupply : ℚ := 21000000
        let resp : CoinSupply :=
          { percentMined := round (coinSupplyAvailable / totalCoinSupply * 100) 1
            coinSupplyMined := coinSupplyAvailable
            coinSupplyMinedRaw := currentCoinSupply
            coinSupplyTotal := 21000000
            airdrop := round (airdrop / coinSupplyAvailable * 100) 1
            premine := round (premine / coinSupplyAvailable * 100) 1
            pos := round (coinSupplyAfterGenesisBlock * (3 / 10) / coinSupplyAvailable * 100) 1
            pow := round (coinSupplyAfterGenesisBlock * (6 / 10) / coinSupplyAvailable * 100) 1
            subsidy := round (coinSupplyAfterGenesisBlock * (1 / 10) / coinSupplyAvailable * 100) 1 }
        (setAssoc cache ("gsc") { item := CacheItem.supply resp, expiry := now + 60 },
          .ok resp)
      | _ => (cache, .crash)

/-- coinSupply (service.go lines 474-523): serve the cached response while
it has not expired (the cached item passes through a *CoinSupply type
assertion, which panics on a wrong-typed slot), otherwise fetch afresh. -/
def coinSupply (cache : Cache) (now : Int) (fetch : FetchResult) :
    Cache × Outcome CoinSupply :=
  match List.lookup ("gsc") cache with
  | some entry =>
    if now < entry.expiry then
      match entry.item with
      | .supply resp => (cache, .ok resp)
      | _ => (cache, .crash)
    else coinSupplyFetch cache now fetch
  | none => coinSupplyFetch cache now fetch

/-- The two GitHub ListReleases results consumed by downloadCount: for the
decred-binaries and decred-release repositories, each either an error or a
list of releases, a release being the list of its asset download counts. -/
abbrev GHFetch := Except Unit (List (List Int)) × Except Unit (List (List Int))

/-- The fetch-and-cache tail of downloadCount (service.go lines 430-470):
sum all asset download counts of both repositories, format the total in
thousands, cache for four hours. -/
def downloadCountFetch (cache : Cache) (now : Int) (gh : GHFetch) :
    Cache × Outcome (List String) :=
  match gh.1 with
  | .error _ => (cache, .err .fetchFailed)
  | .ok binaries =>
    match gh.2 with
    | .error _ => (cache, .err .fetchFailed)
    | .ok releases =>
      let countB := (binaries.map List.sum).sum
      let countR := (releases.map List.sum).sum
      let count := countB + countR
      let countStr := toString (Int.tdiv count 1000) ++ ("k")
      let resp := [("DownloadsCount"), countStr]
      (setAssoc cache ("dc") { item := CacheItem.strings resp, expiry := now + 4 * 3600 },
        .ok resp)

/-- downloadCount (service.go lines 411-471): serve the cached response
while valid; the cached item is read back through a two-value []string
type assertion, so a wrong-typed slot is a returned error, not a panic. -/
def downloadCount (cache : Cache) (now : Int) (gh : GHFetch) :
    Cache × Outcome (List String) :=
  match List.lookup ("dc") cache with
  | some entry =>
    if now < entry.expiry then
      match entry.item with
      | .strings l => (cache, .ok l)
      | _ => (cache, .err .badCacheItem)
    else downloadCountFetch cache now gh
  | none => downloadCountFetch cache now gh

/-- What a handler writes to the http.ResponseWriter, beyond the status
code: the marshalled payload of the branch taken, or nothing. -/
inductive Body where
  | errorJSON : Body
  | strings (l : List String) : Body
  | supplyJSON (c : CoinSupply) : Body
  | vspsJSON (v : VspSet) : Body
  | stakepoolsJSON (s : StakepoolSet) : Body
  | msg (s : String) : Body

/-- HandleRoutes (service.go lines 711-792).  Inputs of the embedding: the
outcome of request.ParseForm, the c form value, the net.SplitHostPort view
of the remote address, the wall clock, and the oracles for the outbound
fetches of the dc and gcs branches.  The result lists every
(status, body) write performed on the response writer, in order, paired
with the state after the call; a crash of a branch writes nothing.  On a
SplitHostPort error the cc branch writes the 500 error response but does
not return, and continues with an empty host string exactly as the
source does. -/
def HandleRoutes (parseErr : Bool) (tag : String)
    (remote : Except Unit (String × String)) (now : Int) (gh : GHFetch)
    (sf : FetchResult) (st : ServiceState) :
    List (Nat × Option Body) × ServiceState :=
  if parseErr then ([(500, some Body.errorJSON)], st)
  else if tag = ("dc") then
    match downloadCount st.cache now gh with
    | (c2, .ok l) => ([(200, some (Body.strings l))], { st with cache := c2 })
    | (c2, .err _) => ([(500, some Body.errorJSON)], { st with cache := c2 })
    | (c2, .crash) => ([], { st with cache := c2 })
  else if tag = ("gcs") then
    match coinSupply st.cache now sf with
    | (c2, .ok r) => ([(200, some (Body.supplyJSON r))], { st with cache := c2 })
    | (c2, .err _) => ([(500, some Body.errorJSON)], { st with cache := c2 })
    | (c2, .crash) => ([], { st with cache := c2 })
  else if tag = ("vsp") then
    ([(200, some (Body.vspsJSON st.vsps))], st)
  else if tag = ("gsd") then
    ([(200, some (Body.stakepoolsJSON st.stakepools))], st)
  else if tag = ("cc") then
    match remote with
    | .error _ =>
      ([(500, some Body.errorJSON), (400, some (Body.msg ("unauthorized")))], st)
    | .ok (addr, _) =>
      if addr = ("::1") ∨ addr = ("127.0.0.1") then
        ([(200, some (Body.msg ("cache cleared")))], { st with cache := [] })
      else
        ([(400, some (Body.msg ("unauthorized")))], st)
  else ([(404, none)], st)

end DcrWeb

namespace DcrWeb

theorem string_mk_toList (l : List Char) : (String.mk l).toList = l := rfl

theorem string_mk_length (l : List Char) : (String.mk l).length = l.length := rfl

/-- Claim C5: round obeys the floor law round x n = floor(x * 10^n + 1/2) /
10^n (this is the code of helper.go verbatim, in exact rational semantics)
and is idempotent at a fixed place count. -/
theorem round_floor_law_and_idempotent (x : ℚ) (n : Nat) :
    round x n = (⌊x * 10 ^ n + 1 / 2⌋ : ℚ) / 10 ^ n ∧
    round (round x n) n = round x n := by
  refine ⟨rfl, ?_⟩
  have hpow : ((10 : ℚ)) ^ n ≠ 0 := pow_ne_zero n (by norm_num)
  have hhalf : ⌊(1 / 2 : ℚ)⌋ = 0 := by norm_num
  show ((⌊((⌊x * 10 ^ n + 1 / 2⌋ : ℚ) / 10 ^ n) * 10 ^ n + 1 / 2⌋ : ℚ)) / 10 ^ n =
    ((⌊x * 10 ^ n + 1 / 2⌋ : ℚ)) / 10 ^ n
  rw [div_mul_cancel₀ ((⌊x * 10 ^ n + 1 / 2⌋ : ℚ)) hpow, Int.floor_int_add, hhalf,
    add_zero]

end DcrWeb

namespace DcrWeb

/-- Claim C6: version sanitization (whitelist filter to the
build-metadata alphabet followed by the 13-character truncation of
stakepoolStats) is idempotent, and its output never exceeds 13
characters. -/
theorem sanitize_version_idempotent_bounded (s : String) :
    truncateVersion (NormalizeBuildString (truncateVersion (NormalizeBuildString s))) =
      truncateVersion (NormalizeBuildString s) ∧
    (truncateVersion (NormalizeBuildString s)).length ≤ 13 := by
  have hmem : ∀ c ∈ List.filter
      (fun r => List.contains (String.toList semanticBuildAlphabet) r) (String.toList s),
      (fun r => List.contains (String.toList semanticBuildAlphabet) r) c = true :=
    fun c hc => List.of_mem_filter hc
  generalize hf : List.filter
      (fun r => List.contains (String.toList semanticBuildAlphabet) r) (String.toList s) = f
    at hmem
  have h1 : NormalizeBuildString s = String.mk f := congrArg String.mk hf
  rw [h1]
  by_cases hlen : (13 : Nat) < f.length
  · have ht : truncateVersion (String.mk f) = String.mk (List.take 13 f) := by
      unfold truncateVersion
      rw [if_pos (show (String.mk f).length > 13 from hlen)]
      rfl
    have htake : ∀ c ∈ List.take 13 f,
        (fun r => List.contains (String.toList semanticBuildAlphabet) r) c = true :=
      fun c hc => hmem c (List.take_subset 13 f hc)
    have h2 : NormalizeBuildString (String.mk (List.take 13 f)) = String.mk (List.take 13 f) :=
      congrArg String.mk (List.filter_eq_self.mpr htake)
    have hlen13 : (String.mk (List.take 13 f)).length ≤ 13 := by
      show (List.take 13 f).length ≤ 13
      rw [List.length_take]
      omega
    refine ⟨?_, ?_⟩
    · rw [ht, h2]
      unfold truncateVersion
      rw [if_neg (Nat.not_lt.mpr hlen13)]
    · rw [ht]
      exact hlen13
  · have hlenf : (String.mk f).length ≤ 13 := by
      show f.length ≤ 13
      omega
    have ht : truncateVersion (String.mk f) = String.mk f := by
      unfold truncateVersion
      rw [if_neg (Nat.not_lt.mpr hlenf)]
    have h2 : NormalizeBuildString (String.mk f) = String.mk f :=
      congrArg String.mk (List.filter_eq_self.mpr hmem)
    refine ⟨?_, ?_⟩
    · rw [ht, h2, ht]
    · rw [ht]
      exact hlenf

end DcrWeb

namespace DcrWeb

theorem lookup_setAssoc {α : Type} (m : List (String × α)) (key : String) (v : α) :
    List.lookup key (setAssoc m key v) = some v := by
  induction m with
  | nil => simp [setAssoc, List.lookup]
  | cons hd tl ih =>
    rcases hd with ⟨k0, v0⟩
    by_cases hk : k0 = key
    · subst hk
      simp [setAssoc, List.lookup]
    · have hne : (key == k0) = false := beq_eq_false_iff_ne.mpr (Ne.symm hk)
      simp [setAssoc, hk, List.lookup, hne, ih]

theorem stakepool_get_setAssoc (pools : StakepoolSet) (key : String) (p : Stakepool) :
    StakepoolSet.get (setAssoc pools key p) key = p := by
  rw [StakepoolSet.get, lookup_setAssoc]
  rfl

theorem vsp_get_setAssoc (vsps : VspSet) (url : String) (v : Vsp) :
    VspSet.get (setAssoc vsps url v) url = v := by
  rw [VspSet.get, lookup_setAssoc]
  rfl

theorem stakepoolStats_err_unchanged (pools : StakepoolSet) (key : String)
    (resp : FetchResult) (now : Int) (e : GoErr)
    (h : (stakepoolStats pools key resp now).2 = Outcome.err e) :
    (stakepoolStats pools key resp now).1 = pools := by
  unfold stakepoolStats at h ⊢
  cases hd : stakepoolStatsDecode resp now (StakepoolSet.get pools key) with
  | ok p2 =>
    rw [hd] at h
    exact Outcome.noConfusion (show Outcome.ok () = Outcome.err e from h)
  | err e2 => rfl
  | crash =>
    rw [hd] at h

theorem vspStats_err_unchanged (vsps : VspSet) (url : String)
    (resp : FetchResult) (now : Int) (e : GoErr)
    (h : (vspStats vsps url resp now).2 = Outcome.err e) :
    (vspStats vsps url resp now).1 = vsps := by
  unfold vspStats at h ⊢
  cases hd : vspStatsDecode resp now (VspSet.get vsps url) with
  | ok v2 =>
    rw [hd] at h
    exact Outcome.noConfusion (show Outcome.ok () = Outcome.err e from h)
  | err e2 => rfl
  | crash =>
    rw [hd] at h

/-- Claim C1: whenever a refresh unit returns an error (HTTP failure,
unmarshal failure, non-success status, or missing required fields), the
store entry of that provider is exactly what it was before the cycle:
stakepoolStats and vspStats write nothing on any returned error. -/
theorem stats_error_leaves_store_unchanged :
    (∀ (pools : StakepoolSet) (key : String) (resp : FetchResult) (now : Int) (e : GoErr),
      (stakepoolStats pools key resp now).2 = Outcome.err e →
      (stakepoolStats pools key resp now).1 = pools) ∧
    (∀ (vsps : VspSet) (url : String) (resp : FetchResult) (now : Int) (e : GoErr),
      (vspStats vsps url resp now).2 = Outcome.err e →
      (vspStats vsps url resp now).1 = vsps) :=
  ⟨stakepoolStats_err_unchanged, vspStats_err_unchanged⟩

/-- Witness for claim C1 at a concrete failing fetch. -/
theorem stats_error_leaves_store_unchanged_witness :
    (stakepoolStats [] ("Alfa") FetchResult.fetchError 0).1 = [] ∧
    (vspStats [] ("stakey.net") FetchResult.fetchError 0).1 = [] :=
  ⟨stats_error_leaves_store_unchanged.1 [] ("Alfa") FetchResult.fetchError 0
      GoErr.fetchFailed rfl,
    stats_error_leaves_store_unchanged.2 [] ("stakey.net") FetchResult.fetchError 0
      GoErr.fetchFailed rfl⟩

/-- A vsp response whose six required fields are all present, but whose
feepercentage is a JSON boolean rather than a number. -/
def vspWrongTypedResp : FetchResult :=
  FetchResult.success (RespBody.jsonVal (GoValue.obj
    [(("apiversions"), GoValue.arr [GoValue.num 3]),
     (("feepercentage"), GoValue.bool true),
     (("vspclosed"), GoValue.bool false),
     (("voting"), GoValue.num 1),
     (("voted"), GoValue.num 2),
     (("revoked"), GoValue.num 0)]))

/-- A stakepool response that is a JSON object whose status field is
present but is a number, not a string. -/
def poolWrongTypedResp : FetchResult :=
  FetchResult.success (RespBody.jsonVal (GoValue.obj
    [(("status"), GoValue.num 200)]))

/-- Claim C2 is violated by the code: a present-but-wrong-typed field hits
a single-value Go type assertion and panics the fetch goroutine instead of
surfacing as a returned decode failure.  Concretely, a vsp response with
all six required fields present but feepercentage : true crashes inside
vspStats, and a stakepool response whose status is the number 200 crashes
inside stakepoolStats; neither writes to the store. -/
theorem wrong_typed_field_crashes :
    vspStats [] ("stakey.net") vspWrongTypedResp 0 = ([], Outcome.crash) ∧
    stakepoolStats [] ("Alfa") poolWrongTypedResp 0 = ([], Outcome.crash) :=
  ⟨rfl, rfl⟩

/-- Claim C3 is violated by vspData: because each unit performs its own
waitGroup.Add(1) inside the spawned goroutine, the schedule in which the
main goroutine reaches waitGroup.Wait first finds the counter still at
zero and returns, while the single unit has not even started: the final
configuration has mainReturned true with the unit at start.  The same
schedule is impossible for stakepoolData, whose Add(len) precedes the
spawns, so its Wait is not enabled until the unit finishes. -/
theorem vspData_wait_returns_early :
    wgRun (vspDataStart 1) [WGLabel.mainWait] =
      some { counter := 0, units := [UnitPC.start], mainReturned := true } ∧
    wgRun (stakepoolDataStart 1) [WGLabel.mainWait] = none :=
  ⟨rfl, rfl⟩

/-- Claim C7: a stakepoolData fan-out unit attempts the current API
version (2) first and retries at the initial version (1), synchronously
and exactly once, precisely when the first attempt returns an error. -/
theorem stakepool_version_fallback (pools : StakepoolSet) (key : String)
    (resp : Nat → FetchResult) (now : Int) :
    StakepoolAPICurrentVersion = 2 ∧ StakepoolAPIInitialVersion = 1 ∧
    (stakepoolDataUnit pools key resp now).2 =
      (if Outcome.isErr (stakepoolStats pools key (resp StakepoolAPICurrentVersion) now).2
       then [StakepoolAPICurrentVersion, StakepoolAPIInitialVersion]
       else [StakepoolAPICurrentVersion]) := by
  refine ⟨rfl, rfl, ?_⟩
  cases h : (stakepoolStats pools key (resp StakepoolAPICurrentVersion) now).2 with
  | ok a => simp [stakepoolDataUnit, h, Outcome.isErr]
  | err e => simp [stakepoolDataUnit, h, Outcome.isErr]
  | crash => simp [stakepoolDataUnit, h, Outcome.isErr]

end DcrWeb

namespace DcrWeb

theorem Outcome.bind_ok_iff {α β : Type} {o : Outcome α} {f : α → Outcome β} {b : β} :
    Outcome.bind o f = Outcome.ok b ↔ ∃ a, o = Outcome.ok a ∧ f a = Outcome.ok b := by
  cases o <;> simp [Outcome.bind]

theorem stakepoolStatsDecode_ok_lastUpdated {resp : FetchResult} {now : Int}
    {pool p2 : Stakepool}
    (h : stakepoolStatsDecode resp now pool = Outcome.ok p2) :
    p2.lastUpdated = now := by
  cases resp with
  | fetchError => simp [stakepoolStatsDecode] at h
  | success body =>
    cases hm : unmarshalMap body with
    | none => simp [stakepoolStatsDecode, hm] at h
    | some poolData =>
      simp only [stakepoolStatsDecode, hm] at h
      rw [Outcome.bind_ok_iff] at h
      obtain ⟨status, -, h⟩ := h
      split at h
      · rw [Outcome.bind_ok_iff] at h
        obtain ⟨data, -, h⟩ := h
        split at h
        · rw [Outcome.bind_ok_iff] at h
          obtain ⟨version, -, h⟩ := h
          rw [Outcome.bind_ok_iff] at h
          obtain ⟨immature, -, h⟩ := h
          rw [Outcome.bind_ok_iff] at h
          obtain ⟨live, -, h⟩ := h
          rw [Outcome.bind_ok_iff] at h
          obtain ⟨voted, -, h⟩ := h
          rw [Outcome.bind_ok_iff] at h
          obtain ⟨missed, -, h⟩ := h
          rw [Outcome.bind_ok_iff] at h
          obtain ⟨poolFees, -, h⟩ := h
          rw [Outcome.bind_ok_iff] at h
          obtain ⟨propLive, -, h⟩ := h
          rw [Outcome.bind_ok_iff] at h
          obtain ⟨propMissed, -, h⟩ := h
          rw [Outcome.bind_ok_iff] at h
          obtain ⟨userCount, -, h⟩ := h
          rw [Outcome.bind_ok_iff] at h
          obtain ⟨userCountActive, -, h⟩ := h
          rw [Outcome.bind_ok_iff] at h
          obtain ⟨apivs, -, h⟩ := h
          simp only [Outcome.ok.injEq] at h
          subst h
          rfl
        · simp at h
      · simp at h

theorem vspStatsDecode_ok_lastUpdated {resp : FetchResult} {now : Int}
    {vsp v2 : Vsp}
    (h : vspStatsDecode resp now vsp = Outcome.ok v2) :
    v2.lastUpdated = now := by
  cases resp with
  | fetchError => simp [vspStatsDecode] at h
  | success body =>
    cases hm : unmarshalMap body with
    | none => simp [vspStatsDecode, hm] at h
    | some info =>
      simp only [vspStatsDecode, hm] at h
      split at h
      · rw [Outcome.bind_ok_iff] at h
        obtain ⟨avs, -, h⟩ := h
        rw [Outcome.bind_ok_iff] at h
        obtain ⟨apiVersions, -, h⟩ := h
        rw [Outcome.bind_ok_iff] at h
        obtain ⟨fee, -, h⟩ := h
        rw [Outcome.bind_ok_iff] at h
        obtain ⟨closed, -, h⟩ := h
        rw [Outcome.bind_ok_iff] at h
        obtain ⟨votingF, -, h⟩ := h
        rw [Outcome.bind_ok_iff] at h
        obtain ⟨votedF, -, h⟩ := h
        rw [Outcome.bind_ok_iff] at h
        obtain ⟨revokedF, -, h⟩ := h
        simp only [Outcome.ok.injEq] at h
        subst h
        rfl
      · simp at h

theorem stakepoolStats_ok_lastUpdated (pools : StakepoolSet) (key : String)
    (resp : FetchResult) (now : Int)
    (h : (stakepoolStats pools key resp now).2 = Outcome.ok ()) :
    (StakepoolSet.get (stakepoolStats pools key resp now).1 key).lastUpdated = now := by
  unfold stakepoolStats at h ⊢
  cases hd : stakepoolStatsDecode resp now (StakepoolSet.get pools key) with
  | ok p2 =>
    show (StakepoolSet.get (setAssoc pools key p2) key).lastUpdated = now
    rw [stakepool_get_setAssoc]
    exact stakepoolStatsDecode_ok_lastUpdated hd
  | err e2 =>
    rw [hd] at h
    exact Outcome.noConfusion (show Outcome.err e2 = Outcome.ok () from h)
  | crash =>
    rw [hd] at h
    exact Outcome.noConfusion (show Outcome.crash = Outcome.ok () from h)

theorem vspStats_ok_lastUpdated (vsps : VspSet) (url : String)
    (resp : FetchResult) (now : Int)
    (h : (vspStats vsps url resp now).2 = Outcome.ok ()) :
    (VspSet.get (vspStats vsps url resp now).1 url).lastUpdated = now := by
  unfold vspStats at h ⊢
  cases hd : vspStatsDecode resp now (VspSet.get vsps url) with
  | ok v2 =>
    show (VspSet.get (setAssoc vsps url v2) url).lastUpdated = now
    rw [vsp_get_setAssoc]
    exact vspStatsDecode_ok_lastUpdated hd
  | err e2 =>
    rw [hd] at h
    exact Outcome.noConfusion (show Outcome.err e2 = Outcome.ok () from h)
  | crash =>
    rw [hd] at h
    exact Outcome.noConfusion (show Outcome.crash = Outcome.ok () from h)

end DcrWeb

namespace DcrWeb

/-- Claim C8: a successful refresh stamps the stored record with the
acceptance time, so over two successful cycles at strictly increasing wall
clock times the stored lastUpdated strictly increases, while a failing
cycle leaves the stored lastUpdated untouched. -/
theorem lastUpdated_acceptance_time :
    (∀ (pools : StakepoolSet) (key : String) (resp : FetchResult) (t : Int),
      (stakepoolStats pools key resp t).2 = Outcome.ok () →
      (StakepoolSet.get (stakepoolStats pools key resp t).1 key).lastUpdated = t) ∧
    (∀ (vsps : VspSet) (url : String) (resp : FetchResult) (t : Int),
      (vspStats vsps url resp t).2 = Outcome.ok () →
      (VspSet.get (vspStats vsps url resp t).1 url).lastUpdated = t) ∧
    (∀ (pools : StakepoolSet) (key : String) (r1 r2 : FetchResult) (t1 t2 : Int),
      t1 < t2 →
      (stakepoolStats pools key r1 t1).2 = Outcome.ok () →
      (stakepoolStats (stakepoolStats pools key r1 t1).1 key r2 t2).2 = Outcome.ok () →
      (StakepoolSet.get (stakepoolStats pools key r1 t1).1 key).lastUpdated <
        (StakepoolSet.get
          (stakepoolStats (stakepoolStats pools key r1 t1).1 key r2 t2).1 key).lastUpdated) ∧
    (∀ (pools : StakepoolSet) (key : String) (resp : FetchResult) (t : Int) (e : GoErr),
      (stakepoolStats pools key resp t).2 = Outcome.err e →
      (StakepoolSet.get (stakepoolStats pools key resp t).1 key).lastUpdated =
        (StakepoolSet.get pools key).lastUpdated) := by
  refine ⟨stakepoolStats_ok_lastUpdated, vspStats_ok_lastUpdated, ?_, ?_⟩
  · intro pools key r1 r2 t1 t2 ht h1 h2
    rw [stakepoolStats_ok_lastUpdated pools key r1 t1 h1,
      stakepoolStats_ok_lastUpdated (stakepoolStats pools key r1 t1).1 key r2 t2 h2]
    exact ht
  · intro pools key resp t e h
    rw [stakepoolStats_err_unchanged pools key resp t e h]

/-- A stakepool response with status success and every required field
present and well typed. -/
def goodPoolResp : FetchResult :=
  FetchResult.success (RespBody.jsonVal (GoValue.obj
    [(("status"), GoValue.str ("success")),
     (("data"), GoValue.obj
       [(("Immature"), GoValue.num 1),
        (("Live"), GoValue.num 2),
        (("Voted"), GoValue.num 3),
        (("Missed"), GoValue.num 4),
        (("PoolFees"), GoValue.num 5),
        (("ProportionLive"), GoValue.num (1 / 2)),
        (("ProportionMissed"), GoValue.num 0),
        (("UserCount"), GoValue.num 7),
        (("UserCountActive"), GoValue.num 6),
        (("APIVersionsSupported"), GoValue.arr [GoValue.num 1, GoValue.num 2]),
        (("Version"), GoValue.str ("1.5.0-pre"))])]))

/-- A vsp response with all six required fields present and well typed. -/
def goodVspResp : FetchResult :=
  FetchResult.success (RespBody.jsonVal (GoValue.obj
    [(("apiversions"), GoValue.arr [GoValue.num 3]),
     (("feepercentage"), GoValue.num 5),
     (("vspclosed"), GoValue.bool false),
     (("voting"), GoValue.num 100),
     (("voted"), GoValue.num 200),
     (("revoked"), GoValue.num 3)]))

/-- Witness for claim C8 at concrete successful and failing refreshes. -/
theorem lastUpdated_acceptance_time_witness :
    (StakepoolSet.get (stakepoolStats [] ("Alfa") goodPoolResp 5).1 ("Alfa")).lastUpdated = 5 ∧
    (VspSet.get (vspStats [] ("stakey.net") goodVspResp 5).1 ("stakey.net")).lastUpdated = 5 ∧
    (StakepoolSet.get (stakepoolStats [] ("Alfa") goodPoolResp 5).1 ("Alfa")).lastUpdated <
      (StakepoolSet.get
        (stakepoolStats (stakepoolStats [] ("Alfa") goodPoolResp 5).1 ("Alfa")
          goodPoolResp 6).1 ("Alfa")).lastUpdated ∧
    (StakepoolSet.get (stakepoolStats [] ("Alfa") FetchResult.fetchError 9).1
        ("Alfa")).lastUpdated =
      (StakepoolSet.get ([] : StakepoolSet) ("Alfa")).lastUpdated :=
  ⟨lastUpdated_acceptance_time.1 [] ("Alfa") goodPoolResp 5 rfl,
    lastUpdated_acceptance_time.2.1 [] ("stakey.net") goodVspResp 5 rfl,
    lastUpdated_acceptance_time.2.2.1 [] ("Alfa") goodPoolResp goodPoolResp 5 6
      (by norm_num) rfl rfl,
    lastUpdated_acceptance_time.2.2.2 [] ("Alfa") FetchResult.fetchError 9
      GoErr.fetchFailed rfl⟩

end DcrWeb

namespace DcrWeb

/-- Functorial action on outcomes, used to project one field out of a
computed response. -/
def Outcome.map {α β : Type} (f : α → β) : Outcome α → Outcome β
  | .ok a => .ok (f a)
  | .err e => .err e
  | .crash => .crash

/-- The dcrdata supply response of the worked example:
supply_mined = 1191578535131039 raw units. -/
def supplyResp1191 : FetchResult :=
  FetchResult.success (RespBody.jsonVal (GoValue.obj
    [(("supply_mined"), GoValue.num 1191578535131039)]))

theorem round_def_floor (f : ℚ) (p : Nat) :
    round f p = ((⌊f * 10 ^ p + 1 / 2⌋ : Int) : ℚ) / 10 ^ p := rfl

theorem round_1191578535131039_1 :
    round (1191578535131039 : ℚ) 1 = 1191578535131039 := by
  rw [round_def_floor]
  have h : ⌊(1191578535131039 : ℚ) * 10 ^ 1 + 1 / 2⌋ = 11915785351310390 := by
    norm_num [Int.floor_eq_iff]
  rw [h]
  norm_num

theorem round_supply_div_0 :
    round ((1191578535131039 : ℚ) / 100000000) 0 = 11915785 := by
  rw [round_def_floor]
  have h : ⌊(1191578535131039 : ℚ) / 100000000 * 10 ^ 0 + 1 / 2⌋ = 11915785 := by
    norm_num [Int.floor_eq_iff]
  rw [h]
  norm_num

theorem round_percent_mined :
    round ((11915785 : ℚ) / 21000000 * 100) 1 = 567 / 10 := by
  rw [round_def_floor]
  have h : ⌊(11915785 : ℚ) / 21000000 * 100 * 10 ^ 1 + 1 / 2⌋ = 567 := by
    norm_num [Int.floor_eq_iff]
  rw [h]
  norm_num

theorem round_airdrop_percent :
    round ((840000 : ℚ) / 11915785 * 100) 1 = 7 := by
  rw [round_def_floor]
  have h : ⌊(840000 : ℚ) / 11915785 * 100 * 10 ^ 1 + 1 / 2⌋ = 70 := by
    norm_num [Int.floor_eq_iff]
  rw [h]
  norm_num

theorem round_pos_percent :
    round (((11915785 : ℚ) - 840000 - 840000) * (3 / 10) / 11915785 * 100) 1 = 258 / 10 := by
  rw [round_def_floor]
  have h : ⌊((11915785 : ℚ) - 840000 - 840000) * (3 / 10) / 11915785 * 100 * 10 ^ 1 + 1 / 2⌋
      = 258 := by
    norm_num [Int.floor_eq_iff]
  rw [h]
  norm_num

theorem round_pow_percent :
    round (((11915785 : ℚ) - 840000 - 840000) * (6 / 10) / 11915785 * 100) 1 = 515 / 10 := by
  rw [round_def_floor]
  have h : ⌊((11915785 : ℚ) - 840000 - 840000) * (6 / 10) / 11915785 * 100 * 10 ^ 1 + 1 / 2⌋
      = 515 := by
    norm_num [Int.floor_eq_iff]
  rw [h]
  norm_num

theorem round_subsidy_percent :
    round (((11915785 : ℚ) - 840000 - 840000) * (1 / 10) / 11915785 * 100) 1 = 86 / 10 := by
  rw [round_def_floor]
  have h : ⌊((11915785 : ℚ) - 840000 - 840000) * (1 / 10) / 11915785 * 100 * 10 ^ 1 + 1 / 2⌋
      = 86 := by
    norm_num [Int.floor_eq_iff]
  rw [h]
  norm_num

/-- Evaluation of the coin-supply fetch at the worked-example input. -/
theorem coinSupplyFetch_eval :
    (coinSupplyFetch [] 0 supplyResp1191).2 = Outcome.ok
      { airdrop := 7
        coinSupplyMined := 11915785
        coinSupplyMinedRaw := 1191578535131039
        coinSupplyTotal := 21000000
        percentMined := 567 / 10
        pos := 258 / 10
        pow := 515 / 10
        premine := 7
        subsidy := 86 / 10 } := by
  simp only [coinSupplyFetch, supplyResp1191, unmarshalMap, List.lookup, beq_self_eq_true,
    asFloat]
  simp only [round_1191578535131039_1, round_supply_div_0, round_percent_mined,
    round_airdrop_percent, round_pos_percent, round_pow_percent, round_subsidy_percent]

end DcrWeb

namespace DcrWeb

/-- Claim C4 as stated is false: for supply_mined = 1191578535131039 the
code rounds the coin supply to zero decimal places after dividing by 1e8,
so CoinSupplyMined is exactly 11915785; its value to one decimal place is
11915785.0, not 11915785.4. -/
theorem coinSupplyMined_not_11915785_4 :
    Outcome.map (fun c => round (CoinSupply.coinSupplyMined c) 1)
        ((coinSupplyFetch [] 0 supplyResp1191).2) = Outcome.ok (11915785 : ℚ) ∧
    (11915785 : ℚ) ≠ (11915785.4 : ℚ) := by
  constructor
  · rw [coinSupplyFetch_eval]
    simp only [Outcome.map]
    rw [round_def_floor]
    have h : ⌊(11915785 : ℚ) * 10 ^ 1 + 1 / 2⌋ = 119157850 := by
      norm_num [Int.floor_eq_iff]
    rw [h]
    norm_num
  · norm_num

/-- Claim C4 amended: for supply_mined = 1191578535131039 the coin-supply
computation yields CoinSupplyMined = 11915785 exactly (raw supply divided
by 1e8 and rounded to zero places, as in the repository's own api.md
example), CoinSupplyMinedRaw = 1191578535131039, and the percentage fields
reproduce the worked example to one decimal place: PercentMined 56.7,
Airdrop 7, Premine 7, PoS 25.8, PoW 51.5, Subsidy 8.6. -/
theorem coinSupply_worked_example :
    (coinSupplyFetch [] 0 supplyResp1191).2 = Outcome.ok
      { airdrop := 7
        coinSupplyMined := 11915785
        coinSupplyMinedRaw := 1191578535131039
        coinSupplyTotal := 21000000
        percentMined := 567 / 10
        pos := 258 / 10
        pow := 515 / 10
        premine := 7
        subsidy := 86 / 10 } := coinSupplyFetch_eval

/-- Claim C9: the cache-clear route rejects any remote host other than the
two loopback literals with an unauthorized 400 response and leaves all
state untouched; from loopback it clears the whole aggregate cache and
responds 200, and on an empty cache both aggregate reads take their fetch
path rather than any cached value. -/
theorem cc_loopback_only :
    (∀ (st : ServiceState) (now : Int) (gh : GHFetch) (sf : FetchResult)
       (host port : String), host ≠ ("127.0.0.1") → host ≠ ("::1") →
       HandleRoutes false ("cc") (Except.ok (host, port)) now gh sf st =
         ([(400, some (Body.msg ("unauthorized")))], st)) ∧
    (∀ (st : ServiceState) (now : Int) (gh : GHFetch) (sf : FetchResult) (port : String),
       HandleRoutes false ("cc") (Except.ok (("127.0.0.1"), port)) now gh sf st =
         ([(200, some (Body.msg ("cache cleared")))], { st with cache := [] }) ∧
       HandleRoutes false ("cc") (Except.ok (("::1"), port)) now gh sf st =
         ([(200, some (Body.msg ("cache cleared")))], { st with cache := [] })) ∧
    (∀ (now : Int) (sf : FetchResult), coinSupply [] now sf = coinSupplyFetch [] now sf) ∧
    (∀ (now : Int) (gh : GHFetch), downloadCount [] now gh = downloadCountFetch [] now gh) := by
  refine ⟨?_, ?_, ?_, ?_⟩
  · intro st now gh sf host port h1 h2
    simp [HandleRoutes, h1, h2]
  · intro st now gh sf port
    constructor <;> simp [HandleRoutes]
  · intro now sf
    rfl
  · intro now gh
    rfl

/-- Witness for claim C9 at a concrete non-loopback and loopback caller. -/
theorem cc_loopback_only_witness :
    HandleRoutes false ("cc") (Except.ok (("93.184.216.34"), ("443"))) 0
        (Except.ok [], Except.ok []) FetchResult.fetchError
        { cache := [], stakepools := [], vsps := [] } =
      ([(400, some (Body.msg ("unauthorized")))],
        { cache := [], stakepools := [], vsps := [] }) ∧
    HandleRoutes false ("cc") (Except.ok (("127.0.0.1"), ("443"))) 0
        (Except.ok [], Except.ok []) FetchResult.fetchError
        { cache := [], stakepools := [], vsps := [] } =
      ([(200, some (Body.msg ("cache cleared")))],
        { cache := [], stakepools := [], vsps := [] }) :=
  ⟨cc_loopback_only.1 { cache := [], stakepools := [], vsps := [] } 0
      (Except.ok [], Except.ok []) FetchResult.fetchError ("93.184.216.34") ("443")
      (by decide) (by decide),
    (cc_loopback_only.2.1 { cache := [], stakepools := [], vsps := [] } 0
      (Except.ok [], Except.ok []) FetchResult.fetchError ("443")).1⟩

/-- Claim C10: any request whose c form value is not one of the five
recognized tags receives exactly one write: status 404 with no body, and
neither the provider stores nor the aggregate cache change. -/
theorem unknown_tag_404 (tag : String) (remote : Except Unit (String × String))
    (now : Int) (gh : GHFetch) (sf : FetchResult) (st : ServiceState)
    (h : tag ∉ [("dc"), ("gcs"), ("vsp"), ("gsd"), ("cc")]) :
    HandleRoutes false tag remote now gh sf st = ([(404, none)], st) := by
  simp only [List.mem_cons, List.not_mem_nil, or_false, not_or] at h
  obtain ⟨h1, h2, h3, h4, h5⟩ := h
  simp [HandleRoutes, h1, h2, h3, h4, h5]

/-- Witness for claim C10 at the empty tag of a request without the c
parameter. -/
theorem unknown_tag_404_witness :
    HandleRoutes false ("") (Except.error ()) 0 (Except.ok [], Except.ok [])
        FetchResult.fetchError { cache := [], stakepools := [], vsps := [] } =
      ([(404, none)], { cache := [], stakepools := [], vsps := [] }) :=
  unknown_tag_404 ("") (Except.error ()) 0 (Except.ok [], Except.ok [])
    FetchResult.fetchError { cache := [], stakepools := [], vsps := [] } (by decide)

end DcrWeb
